import Mathlib

/-!
Shallow embedding of `src/migas/operations.py` (the migas telemetry client).

Python values that can appear in parameter mappings, GraphQL responses and
fallback mappings are modelled by `PyVal`.  Python dicts are modelled as
association lists with distinct keys (insertion order preserved, as in
Python 3.7+); dict mutation is modelled by value passing.  Fallible Python
code (statements that can raise) is modelled with `Except`/`Option`.
-/

/-- Model of a Python value as used by `operations.py`: strings, booleans,
integers, `None`, lists and (string-keyed) dicts. -/
inductive PyVal where
  | str : String → PyVal
  | bool : Bool → PyVal
  | int : Int → PyVal
  | none : PyVal
  | list : List PyVal → PyVal
  | dict : List (String × PyVal) → PyVal

/-- Python truthiness (`bool(v)`), as used by `if not fallback:` and
`if cls.selections:` in the source. -/
def isTruthy : PyVal → Bool
  | PyVal.none => false
  | PyVal.bool b => b
  | PyVal.int n => n != 0
  | PyVal.str s => s != ""
  | PyVal.list xs => !xs.isEmpty
  | PyVal.dict es => !es.isEmpty

/-- Dict lookup: models both `k in d` (`isSome`) and `d.get(k)` / `d[k]`. -/
def dictGet (es : List (String × PyVal)) (k : String) : Option PyVal :=
  match es with
  | [] => Option.none
  | (k2, v) :: rest => if k2 = k then some v else dictGet rest k

/-- Helper for dict item assignment: replaces the first entry with the given
key (keeping its position, as CPython does) or appends a new entry. -/
def setEntry : List (String × PyVal) → String → PyVal → List (String × PyVal)
  | [], k, v => [(k, v)]
  | (k2, w) :: rest, k, v =>
    if k2 = k then (k, v) :: rest else (k2, w) :: setEntry rest k v

/-- Models `d[k] = v`.  On a non-dict value the Python statement raises; in
`_filter_response` that exception is swallowed by the `finally` clause and the
object is left unchanged, which is what the non-dict branch returns here. -/
def dictSet (d : PyVal) (k : String) (v : PyVal) : PyVal :=
  match d with
  | PyVal.dict es => PyVal.dict (setEntry es k v)
  | other => other

/-- Models the expression `str(val).lower()` that the source applies to a
Python bool (`str(True).lower() = "true"`, `str(False).lower() = "false"`). -/
def pythonBool (b : Bool) : String := if b then "true" else "false"

/-- Models the statement `if isinstance(val, bool): val = str(val).lower()`:
a boolean is replaced by its lowercase string form, anything else is kept. -/
def pyBoolToStr (v : PyVal) : PyVal :=
  match v with
  | PyVal.bool b => PyVal.str (pythonBool b)
  | other => other

/-- Lowercase hex digit of a value below 16 (as produced by the
percent-x formatting of Python inside `json.dumps`). -/
def toHexDigit (n : Nat) : Char :=
  if n < 10 then Char.ofNat (48 + n) else Char.ofNat (87 + n)

/-- Value of one hex digit, accepting both cases (as `int(s, 16)` does). -/
def fromHexDigit (c : Char) : Option Nat :=
  if 48 ≤ c.toNat ∧ c.toNat ≤ 57 then some (c.toNat - 48)
  else if 97 ≤ c.toNat ∧ c.toNat ≤ 102 then some (c.toNat - 87)
  else if 65 ≤ c.toNat ∧ c.toNat ≤ 70 then some (c.toNat - 55)
  else Option.none

/-- Value of a 4-hex-digit group, as read by a JSON `\uXXXX` escape. -/
def readHex4 (a b c d : Char) : Option Nat :=
  match fromHexDigit a, fromHexDigit b, fromHexDigit c, fromHexDigit d with
  | some x1, some x2, some x3, some x4 => some (x1 * 4096 + x2 * 256 + x3 * 16 + x4)
  | _, _, _, _ => Option.none

/-- The six characters of a JSON `\uXXXX` escape for a value below 0x10000. -/
def hexEsc (n : Nat) : List Char :=
  ['\\', 'u', toHexDigit (n / 4096 % 16), toHexDigit (n / 256 % 16),
    toHexDigit (n / 16 % 16), toHexDigit (n % 16)]

/-- Per-character escaping performed by the Python `json.dumps` on a string
(default `ensure_ascii=True`): short escapes for quote, backslash and the
common control characters, `\uXXXX` for every other character outside
`0x20..0x7e`, with a UTF-16 surrogate pair for characters above 0xFFFF. -/
def encChar (c : Char) : List Char :=
  if c = '"' then ['\\', '"']
  else if c = '\\' then ['\\', '\\']
  else if c = '\x08' then ['\\', 'b']
  else if c = '\x0c' then ['\\', 'f']
  else if c = '\n' then ['\\', 'n']
  else if c = '\r' then ['\\', 'r']
  else if c = '\t' then ['\\', 't']
  else if 32 ≤ c.toNat ∧ c.toNat ≤ 126 then [c]
  else if c.toNat < 65536 then hexEsc c.toNat
  else hexEsc (55296 + (c.toNat - 65536) / 1024) ++ hexEsc (56320 + (c.toNat - 65536) % 1024)

/-- Escape every character of a string, in order. -/
def encodeChars : List Char → List Char
  | [] => []
  | c :: cs => encChar c ++ encodeChars cs

/-- Models `json.dumps` applied to a Python `str`: the escaped characters
surrounded by double quotes. -/
def jsonQuote (s : String) : String :=
  String.mk ('"' :: (encodeChars s.data ++ ['"']))

mutual

/-- Models `json.dumps` on a `PyVal` (default separators). -/
def jsonDumps : PyVal → String
  | PyVal.str s => jsonQuote s
  | PyVal.bool b => if b then "true" else "false"
  | PyVal.int n => toString n
  | PyVal.none => "null"
  | PyVal.list xs => "[" ++ String.intercalate ", " (jsonList xs) ++ "]"
  | PyVal.dict es => "\x7b" ++ String.intercalate ", " (jsonDictEntries es) ++ "\x7d"

def jsonList : List PyVal → List String
  | [] => []
  | v :: vs => jsonDumps v :: jsonList vs

def jsonDictEntries : List (String × PyVal) → List String
  | [] => []
  | (k, v) :: es => (jsonQuote k ++ ": " ++ jsonDumps v) :: jsonDictEntries es

end

/-- Per-character escaping of Python `repr()` on a str, for quote
character `q`: backslash, the quote, `\n`, `\r`, `\t`, and `\xXX` for other
control characters; printable characters are kept.  (Python keeps most
printable non-ASCII literal; this model keeps all of them.) -/
def reprQuoteChar (q c : Char) : List Char :=
  if c = '\\' then ['\\', '\\']
  else if c = q then ['\\', q]
  else if c = '\n' then ['\\', 'n']
  else if c = '\r' then ['\\', 'r']
  else if c = '\t' then ['\\', 't']
  else if c.toNat < 32 ∨ c.toNat = 127 then
    ['\\', 'x', toHexDigit (c.toNat / 16 % 16), toHexDigit (c.toNat % 16)]
  else [c]

def reprChars (q : Char) : List Char → List Char
  | [] => []
  | c :: cs => reprQuoteChar q c ++ reprChars q cs

/-- Models `repr()` of a Python str: single-quoted, except double-quoted when
the string contains a single quote but no double quote. -/
def pyReprStr (s : String) : String :=
  let q := if s.data.contains (Char.ofNat 39) && !(s.data.contains '"') then '"' else Char.ofNat 39
  String.mk (q :: (reprChars q s.data ++ [q]))

mutual

/-- Models Python `repr()` of a value (used by `str()` on containers). -/
def pyRepr : PyVal → String
  | PyVal.str s => pyReprStr s
  | PyVal.bool b => if b then "True" else "False"
  | PyVal.int n => toString n
  | PyVal.none => "None"
  | PyVal.list xs => "[" ++ String.intercalate ", " (pyReprList xs) ++ "]"
  | PyVal.dict es => "\x7b" ++ String.intercalate ", " (pyReprDict es) ++ "\x7d"

def pyReprList : List PyVal → List String
  | [] => []
  | v :: vs => pyRepr v :: pyReprList vs

def pyReprDict : List (String × PyVal) → List String
  | [] => []
  | (k, v) :: es => (pyReprStr k ++ ": " ++ pyRepr v) :: pyReprDict es

end

/-- Models Python `str()` (the conversion used by f-string interpolation):
identity on strings, `repr()`-like text otherwise. -/
def pyStr : PyVal → String
  | PyVal.str s => s
  | v => pyRepr v

/-- Schema node of a `query_args` mapping: either a leaf parameter kind or a
nested group.  A leaf records the `.name` of its kind enum member
(`TextType.FREE.name = "FREE"`, `TextType.LITERAL.name = "LITERAL"`), since
the source dispatches on `qval.name` as a string. -/
inductive SchemaNode where
  | leaf : String → SchemaNode
  | group : List (String × SchemaNode) → SchemaNode

/-- Core of `_parse_format_params`: the list of `query_inputs` fragments,
processed in schema order.  `Except.error` models an uncaught Python
exception:

* when a key is present in `params` and its schema entry is a nested dict,
  the source evaluates `qval.name` on a dict, raising `AttributeError`;
* when a key is present and its leaf kind is neither `FREE` nor `LITERAL`,
  the source evaluates `qarg.name` (the dict key, a `str`) as an argument of
  `logger.error`, raising `AttributeError` before anything is logged.

A nested group whose name is absent from `params` is always emitted as
`name:{recursive}` (the source appends unconditionally). -/
def parseFragments (params : List (String × PyVal)) :
    List (String × SchemaNode) → Except String (List String)
  | [] => Except.ok []
  | (qarg, qval) :: rest =>
    match dictGet params qarg with
    | some val0 =>
      let val := pyBoolToStr val0
      match qval with
      | SchemaNode.leaf kind =>
        if kind = "FREE" then
          (parseFragments params rest).map (fun fs => (qarg ++ ":" ++ jsonDumps val) :: fs)
        else if kind = "LITERAL" then
          (parseFragments params rest).map (fun fs => (qarg ++ ":" ++ pyStr val) :: fs)
        else
          Except.error "AttributeError: str object has no attribute name"
      | SchemaNode.group _ =>
        Except.error "AttributeError: dict object has no attribute name"
    | Option.none =>
      match qval with
      | SchemaNode.group g =>
        match parseFragments params g with
        | Except.ok inner =>
          (parseFragments params rest).map
            (fun fs => (qarg ++ ":\x7b" ++ String.intercalate "," inner ++ "\x7d") :: fs)
        | Except.error e => Except.error e
      | SchemaNode.leaf _ => parseFragments params rest

/-- `_parse_format_params(params, query_args)`: the fragments joined with a
comma. -/
def parseFormatParams (params : List (String × PyVal))
    (query_args : List (String × SchemaNode)) : Except String String :=
  (parseFragments params query_args).map (String.intercalate ",")

/-- The per-operation data of the `Operation` dataclass (class attributes of
each subclass). -/
structure Operation where
  operation_type : String
  operation_name : String
  query_args : List (String × SchemaNode)
  selections : Option (List String) := Option.none
  query : String := ""
  fingerprint : Bool := false
  error_response : PyVal := PyVal.none

/-- `Operation._construct_query(params)`.  The source assigns the constructed
text to `cls.query` (a class attribute) before returning it; that in-place
update is modelled by returning the updated `Operation` alongside the query
text.  `if cls.selections:` is Python truthiness: both `None` and an empty
tuple are skipped. -/
def constructQuery (op : Operation) (params : List (String × PyVal)) :
    Except String (Operation × String) :=
  (parseFormatParams params op.query_args).map (fun args =>
    let q0 := op.operation_type ++ "\x7b" ++ op.operation_name ++ "(" ++ args ++ ")"
    let q1 := match op.selections with
      | some sels =>
        if sels.isEmpty then q0 else q0 ++ "\x7b" ++ String.intercalate "," sels ++ "\x7d"
      | Option.none => q0
    let q := q1 ++ "\x7d"
    ({ op with query := q }, q))

/-- The `AddBreadcrumb` operation class. -/
def AddBreadcrumb : Operation :=
  { operation_type := "mutation"
    operation_name := "add_breadcrumb"
    query_args :=
      [("project", SchemaNode.leaf "FREE"),
       ("project_version", SchemaNode.leaf "FREE"),
       ("language", SchemaNode.leaf "FREE"),
       ("language_version", SchemaNode.leaf "FREE"),
       ("ctx", SchemaNode.group
         [("session_id", SchemaNode.leaf "FREE"),
          ("user_id", SchemaNode.leaf "FREE"),
          ("user_type", SchemaNode.leaf "LITERAL"),
          ("platform", SchemaNode.leaf "FREE"),
          ("container", SchemaNode.leaf "LITERAL"),
          ("is_ci", SchemaNode.leaf "LITERAL")]),
       ("proc", SchemaNode.group
         [("status", SchemaNode.leaf "LITERAL"),
          ("status_desc", SchemaNode.leaf "FREE"),
          ("error_type", SchemaNode.leaf "FREE"),
          ("error_desc", SchemaNode.leaf "FREE")])]
    fingerprint := true
    selections := some ["success"] }

/-- The generic error text `ERROR` of the source. -/
def ERROR : String := "[migas-py] An error occurred."

/-- The `AddProject` operation class (deprecated operation). -/
def AddProject : Operation :=
  { operation_type := "mutation"
    operation_name := "add_project"
    query_args :=
      [("p", SchemaNode.group
        [("project", SchemaNode.leaf "FREE"),
         ("project_version", SchemaNode.leaf "FREE"),
         ("language", SchemaNode.leaf "FREE"),
         ("language_version", SchemaNode.leaf "FREE"),
         ("is_ci", SchemaNode.leaf "LITERAL"),
         ("status", SchemaNode.leaf "LITERAL"),
         ("status_desc", SchemaNode.leaf "FREE"),
         ("error_type", SchemaNode.leaf "FREE"),
         ("error_desc", SchemaNode.leaf "FREE"),
         ("user_id", SchemaNode.leaf "FREE"),
         ("session_id", SchemaNode.leaf "FREE"),
         ("container", SchemaNode.leaf "LITERAL"),
         ("user_type", SchemaNode.leaf "LITERAL"),
         ("platform", SchemaNode.leaf "FREE"),
         ("arguments", SchemaNode.leaf "FREE")])]
    fingerprint := true
    error_response := PyVal.dict
      [("success", PyVal.bool false),
       ("latest_version", PyVal.none),
       ("message", PyVal.str ERROR)] }

/-- The `CheckProject` operation class. -/
def CheckProject : Operation :=
  { operation_type := "query"
    operation_name := "check_project"
    query_args :=
      [("project", SchemaNode.leaf "FREE"),
       ("project_version", SchemaNode.leaf "FREE"),
       ("language", SchemaNode.leaf "FREE"),
       ("language_version", SchemaNode.leaf "FREE"),
       ("is_ci", SchemaNode.leaf "LITERAL"),
       ("status", SchemaNode.leaf "LITERAL"),
       ("status_desc", SchemaNode.leaf "FREE"),
       ("error_type", SchemaNode.leaf "FREE"),
       ("error_desc", SchemaNode.leaf "FREE"),
       ("user_id", SchemaNode.leaf "FREE"),
       ("session_id", SchemaNode.leaf "FREE"),
       ("container", SchemaNode.leaf "LITERAL"),
       ("platform", SchemaNode.leaf "FREE"),
       ("arguments", SchemaNode.leaf "FREE")]
    selections := some ["success", "flagged", "latest", "message"] }

/-- The `GetUsage` operation class. -/
def GetUsage : Operation :=
  { operation_type := "query"
    operation_name := "get_usage"
    query_args :=
      [("project", SchemaNode.leaf "FREE"),
       ("start", SchemaNode.leaf "FREE"),
       ("end", SchemaNode.leaf "FREE"),
       ("unique", SchemaNode.leaf "LITERAL")] }

/-- The built-in default fallback substituted by `_filter_response` when the
caller-supplied fallback is falsy. -/
def defaultFallback : PyVal :=
  PyVal.dict [("success", PyVal.bool false), ("message", PyVal.str ERROR)]

/-- Models the read `response.get("errors")[0]["message"]` inside the `try`
block of `_filter_response`: `some m` when every step succeeds, `Option.none`
when any step raises (`.get` on a non-dict, indexing `None`, an empty list, a
non-subscriptable value, or a missing `message` key). -/
def readErrorMessage (response : PyVal) : Option PyVal :=
  match response with
  | PyVal.dict entries =>
    match dictGet entries "errors" with
    | some (PyVal.list (first :: _)) =>
      match first with
      | PyVal.dict fe => dictGet fe "message"
      | _ => Option.none
    | _ => Option.none
  | _ => Option.none

/-- The `try`/`finally` tail of `_filter_response`: overwrite
`fallback["message"]` when the error read succeeds, swallow the exception and
leave the fallback unchanged otherwise; either way the fallback is returned. -/
def failureResult (response fb : PyVal) : PyVal :=
  match readErrorMessage response with
  | some m => dictSet fb "message" m
  | Option.none => fb

/-- `_filter_response(response, operation, fallback)`.  A falsy fallback is
replaced by `defaultFallback`; a dict response with a dict `data` field
returns `data.get(operation, fallback)`; every other shape takes the failure
path. -/
def filterResponse (response : PyVal) (operation : String) (fallback : PyVal) : PyVal :=
  let fb := if isTruthy fallback then fallback else defaultFallback
  match response with
  | PyVal.dict entries =>
    match dictGet entries "data" with
    | some (PyVal.dict res) =>
      match dictGet res operation with
      | some v => v
      | Option.none => fb
    | _ => failureResult response fb
  | _ => failureResult response fb

/-- State of the caller-supplied fallback object after `_filter_response`
returns (the source mutates it in place on the failure path when it is
truthy; a falsy caller object is never touched because the source rebinds
the local name to a fresh default dict). -/
def fallbackAfter (response : PyVal) (operation : String) (fallback : PyVal) : PyVal :=
  if isTruthy fallback then
    match response with
    | PyVal.dict entries =>
      match dictGet entries "data" with
      | some (PyVal.dict _) => fallback
      | _ => failureResult response fallback
    | _ => failureResult response fallback
  else fallback

/-- Shape test: true exactly when `_filter_response` takes the failure path
(response not a dict, or its `data` field absent or not a dict). -/
def isFailureShape (response : PyVal) : Bool :=
  match response with
  | PyVal.dict entries =>
    match dictGet entries "data" with
    | some (PyVal.dict _) => false
    | _ => true
  | _ => true

/-- Mapping test on a result value. -/
def isDict : PyVal → Bool
  | PyVal.dict _ => true
  | _ => false

/-- Modelled from the spec: one escape sequence of a standard JSON
string-literal decoder (the inverse direction of `json.dumps`, e.g.
`json.loads`).  Given the character after a backslash and the remaining
input, returns the decoded character and how many further input characters
were consumed (0 for short escapes, 4 for `\uXXXX`, 10 for a surrogate
pair).  Lone surrogate escapes are rejected: they denote no Unicode scalar
value and are never produced by the encoder. -/
def decodeEsc (e : Char) (cs2 : List Char) : Option (Char × Nat) :=
  if e = '"' then some ('"', 0)
  else if e = '\\' then some ('\\', 0)
  else if e = '/' then some ('/', 0)
  else if e = 'b' then some ('\x08', 0)
  else if e = 'f' then some ('\x0c', 0)
  else if e = 'n' then some ('\n', 0)
  else if e = 'r' then some ('\r', 0)
  else if e = 't' then some ('\t', 0)
  else if e = 'u' then
    match cs2 with
    | a :: b :: c3 :: d :: cs3 =>
      match readHex4 a b c3 d with
      | some n =>
        if 55296 ≤ n ∧ n ≤ 56319 then
          match cs3 with
          | bs :: u2 :: a2 :: b2 :: c4 :: d2 :: _ =>
            if bs = '\\' ∧ u2 = 'u' then
              match readHex4 a2 b2 c4 d2 with
              | some m =>
                if 56320 ≤ m ∧ m ≤ 57343 then
                  some (Char.ofNat ((n - 55296) * 1024 + (m - 56320) + 65536), 10)
                else Option.none
              | Option.none => Option.none
            else Option.none
          | _ => Option.none
        else if 56320 ≤ n ∧ n ≤ 57343 then Option.none
        else some (Char.ofNat n, 4)
      | Option.none => Option.none
    | _ => Option.none
  else Option.none

/-- Modelled from the spec: the body of a standard JSON string-literal
decoder, reading characters and escape sequences up to a closing quote that
must end the input. -/
def decodeBody (l : List Char) : Option (List Char) :=
  match l with
  | [] => Option.none
  | c :: cs =>
    if c = '"' then
      match cs with
      | [] => some []
      | _ :: _ => Option.none
    else if c = '\\' then
      match cs with
      | [] => Option.none
      | e :: cs2 =>
        match decodeEsc e cs2 with
        | some (ch, k) => (decodeBody (cs2.drop k)).map (fun r => ch :: r)
        | Option.none => Option.none
    else (decodeBody cs).map (fun r => c :: r)
termination_by l.length
decreasing_by
  · simp [List.length_drop]
    omega
  · simp

/-- Decode a complete JSON string literal: an opening quote, a body, and a
closing quote ending the input. -/
def decodeJSONString (s : String) : Option String :=
  match s.data with
  | '"' :: rest => (decodeBody rest).map String.mk
  | _ => Option.none

/-! Helper lemmas: the JSON string encoding of `json.dumps` round-trips
through the standard decoder. -/

theorem decodeBody_esc (e : Char) (cs2 : List Char) (ch : Char) (k : Nat)
    (h : decodeEsc e cs2 = some (ch, k)) :
    decodeBody ('\\' :: e :: cs2) = (decodeBody (cs2.drop k)).map (fun r => ch :: r) := by
  rw [decodeBody.eq_def]
  simp [h]

theorem decodeBody_plain (c : Char) (rest : List Char)
    (h1 : ¬ c = '"') (h2 : ¬ c = '\\') :
    decodeBody (c :: rest) = (decodeBody rest).map (fun r => c :: r) := by
  rw [decodeBody.eq_def]
  simp [h1, h2]

theorem decodeBody_end : decodeBody ['"'] = some [] := by
  rw [decodeBody.eq_def]
  simp

theorem charValidNat (c : Char) :
    c.toNat < 55296 ∨ (57343 < c.toNat ∧ c.toNat < 1114112) := c.valid

theorem fromHex_toHex : ∀ n < 16, fromHexDigit (toHexDigit n) = some n := by decide

theorem readHex4_hexEsc (n : Nat) (h : n < 65536) :
    readHex4 (toHexDigit (n / 4096 % 16)) (toHexDigit (n / 256 % 16))
      (toHexDigit (n / 16 % 16)) (toHexDigit (n % 16)) = some n := by
  simp only [readHex4, fromHex_toHex _ (by omega : n / 4096 % 16 < 16),
    fromHex_toHex _ (by omega : n / 256 % 16 < 16), fromHex_toHex _ (by omega : n / 16 % 16 < 16),
    fromHex_toHex _ (by omega : n % 16 < 16)]
  congr 1
  omega

theorem decodeEsc_u_plain (a b c3 d : Char) (n : Nat) (cs3 : List Char)
    (hr : readHex4 a b c3 d = some n)
    (hno1 : ¬(55296 ≤ n ∧ n ≤ 56319)) (hno2 : ¬(56320 ≤ n ∧ n ≤ 57343)) :
    decodeEsc 'u' (a :: b :: c3 :: d :: cs3) = some (Char.ofNat n, 4) := by
  simp [decodeEsc, hr, hno1, hno2]

theorem decodeEsc_u_pair (a b c3 d a2 b2 c4 d2 : Char) (n m : Nat) (cs4 : List Char)
    (hr1 : readHex4 a b c3 d = some n) (h1 : 55296 ≤ n ∧ n ≤ 56319)
    (hr2 : readHex4 a2 b2 c4 d2 = some m) (h2 : 56320 ≤ m ∧ m ≤ 57343) :
    decodeEsc 'u' (a :: b :: c3 :: d :: '\\' :: 'u' :: a2 :: b2 :: c4 :: d2 :: cs4)
      = some (Char.ofNat ((n - 55296) * 1024 + (m - 56320) + 65536), 10) := by
  simp [decodeEsc, hr1, h1.1, h1.2, hr2, h2.1, h2.2]

theorem decodeBody_encChar (c : Char) (rest : List Char) :
    decodeBody (encChar c ++ rest) = (decodeBody rest).map (fun r => c :: r) := by
  by_cases h1 : c = '"'
  · subst h1
    rw [show encChar '"' ++ rest = '\\' :: '"' :: rest by simp [encChar]]
    rw [decodeBody_esc '"' rest '"' 0 rfl]
    rfl
  by_cases h2 : c = '\\'
  · subst h2
    rw [show encChar '\\' ++ rest = '\\' :: '\\' :: rest by simp [encChar]]
    rw [decodeBody_esc '\\' rest '\\' 0 rfl]
    rfl
  by_cases h3 : c = '\x08'
  · subst h3
    rw [show encChar '\x08' ++ rest = '\\' :: 'b' :: rest by simp [encChar]]
    rw [decodeBody_esc 'b' rest '\x08' 0 rfl]
    rfl
  by_cases h4 : c = '\x0c'
  · subst h4
    rw [show encChar '\x0c' ++ rest = '\\' :: 'f' :: rest by simp [encChar]]
    rw [decodeBody_esc 'f' rest '\x0c' 0 rfl]
    rfl
  by_cases h5 : c = '\n'
  · subst h5
    rw [show encChar '\n' ++ rest = '\\' :: 'n' :: rest by simp [encChar]]
    rw [decodeBody_esc 'n' rest '\n' 0 rfl]
    rfl
  by_cases h6 : c = '\r'
  · subst h6
    rw [show encChar '\r' ++ rest = '\\' :: 'r' :: rest by simp [encChar]]
    rw [decodeBody_esc 'r' rest '\r' 0 rfl]
    rfl
  by_cases h7 : c = '\t'
  · subst h7
    rw [show encChar '\t' ++ rest = '\\' :: 't' :: rest by simp [encChar]]
    rw [decodeBody_esc 't' rest '\t' 0 rfl]
    rfl
  by_cases h8 : 32 ≤ c.toNat ∧ c.toNat ≤ 126
  · rw [show encChar c = [c] by
      simp only [encChar, if_neg h1, if_neg h2, if_neg h3, if_neg h4, if_neg h5, if_neg h6,
        if_neg h7, if_pos h8]]
    exact decodeBody_plain c rest h1 h2
  have hv := charValidNat c
  by_cases h9 : c.toNat < 65536
  · rw [show encChar c = hexEsc c.toNat by
      simp only [encChar, if_neg h1, if_neg h2, if_neg h3, if_neg h4, if_neg h5, if_neg h6,
        if_neg h7, if_neg h8, if_pos h9]]
    rw [show hexEsc c.toNat ++ rest
        = '\\' :: 'u' :: toHexDigit (c.toNat / 4096 % 16) :: toHexDigit (c.toNat / 256 % 16)
            :: toHexDigit (c.toNat / 16 % 16) :: toHexDigit (c.toNat % 16) :: rest by
      simp [hexEsc]]
    rw [decodeBody_esc 'u' _ (Char.ofNat c.toNat) 4
      (decodeEsc_u_plain _ _ _ _ c.toNat rest (readHex4_hexEsc c.toNat h9) (by omega) (by omega))]
    rw [show List.drop 4 (toHexDigit (c.toNat / 4096 % 16) :: toHexDigit (c.toNat / 256 % 16)
        :: toHexDigit (c.toNat / 16 % 16) :: toHexDigit (c.toNat % 16) :: rest) = rest from rfl]
    rw [Char.ofNat_toNat]
  · rw [show encChar c = hexEsc (55296 + (c.toNat - 65536) / 1024)
          ++ hexEsc (56320 + (c.toNat - 65536) % 1024) by
      simp only [encChar, if_neg h1, if_neg h2, if_neg h3, if_neg h4, if_neg h5, if_neg h6,
        if_neg h7, if_neg h8, if_neg h9]]
    have hhi : 55296 + (c.toNat - 65536) / 1024 < 65536 := by omega
    have hlo : 56320 + (c.toNat - 65536) % 1024 < 65536 := by omega
    rw [show (hexEsc (55296 + (c.toNat - 65536) / 1024)
          ++ hexEsc (56320 + (c.toNat - 65536) % 1024)) ++ rest
        = '\\' :: 'u' :: toHexDigit ((55296 + (c.toNat - 65536) / 1024) / 4096 % 16)
            :: toHexDigit ((55296 + (c.toNat - 65536) / 1024) / 256 % 16)
            :: toHexDigit ((55296 + (c.toNat - 65536) / 1024) / 16 % 16)
            :: toHexDigit ((55296 + (c.toNat - 65536) / 1024) % 16)
            :: '\\' :: 'u' :: toHexDigit ((56320 + (c.toNat - 65536) % 1024) / 4096 % 16)
            :: toHexDigit ((56320 + (c.toNat - 65536) % 1024) / 256 % 16)
            :: toHexDigit ((56320 + (c.toNat - 65536) % 1024) / 16 % 16)
            :: toHexDigit ((56320 + (c.toNat - 65536) % 1024) % 16) :: rest by
      simp [hexEsc]]
    rw [decodeBody_esc 'u' _ _ 10
      (decodeEsc_u_pair _ _ _ _ _ _ _ _ (55296 + (c.toNat - 65536) / 1024)
        (56320 + (c.toNat - 65536) % 1024) rest
        (readHex4_hexEsc _ hhi) (by omega) (readHex4_hexEsc _ hlo) (by omega))]
    rw [show List.drop 10 (toHexDigit ((55296 + (c.toNat - 65536) / 1024) / 4096 % 16)
            :: toHexDigit ((55296 + (c.toNat - 65536) / 1024) / 256 % 16)
            :: toHexDigit ((55296 + (c.toNat - 65536) / 1024) / 16 % 16)
            :: toHexDigit ((55296 + (c.toNat - 65536) / 1024) % 16)
            :: '\\' :: 'u' :: toHexDigit ((56320 + (c.toNat - 65536) % 1024) / 4096 % 16)
            :: toHexDigit ((56320 + (c.toNat - 65536) % 1024) / 256 % 16)
            :: toHexDigit ((56320 + (c.toNat - 65536) % 1024) / 16 % 16)
            :: toHexDigit ((56320 + (c.toNat - 65536) % 1024) % 16) :: rest) = rest from rfl]
    rw [show (55296 + (c.toNat - 65536) / 1024 - 55296) * 1024
        + (56320 + (c.toNat - 65536) % 1024 - 56320) + 65536 = c.toNat by omega]
    rw [Char.ofNat_toNat]

theorem decodeBody_encodeChars (l : List Char) :
    decodeBody (encodeChars l ++ ['"']) = some l := by
  induction l with
  | nil =>
    rw [show encodeChars [] ++ ['"'] = ['"'] from rfl]
    exact decodeBody_end
  | cons c cs ih =>
    rw [show encodeChars (c :: cs) ++ ['"'] = encChar c ++ (encodeChars cs ++ ['"']) by
      simp [encodeChars]]
    rw [decodeBody_encChar, ih]
    rfl

theorem decode_encode (s : String) : decodeJSONString (jsonQuote s) = some s := by
  rw [decodeJSONString, jsonQuote]
  rw [show (String.mk ('"' :: (encodeChars s.data ++ ['"']))).data
      = '"' :: (encodeChars s.data ++ ['"']) from rfl]
  simp only [decodeBody_encodeChars]
  cases s
  rfl

/-! Helper lemmas about the query builder. -/

theorem parseFragments_append (params : List (String × PyVal))
    (xs ys : List (String × SchemaNode)) :
    parseFragments params (xs ++ ys) =
      match parseFragments params xs with
      | Except.ok a => (parseFragments params ys).map (fun b => a ++ b)
      | Except.error e => Except.error e := by
  induction xs with
  | nil =>
    simp [parseFragments]
    cases parseFragments params ys <;> simp [Except.map]
  | cons p rest ih =>
    obtain ⟨qarg, qval⟩ := p
    rw [List.cons_append]
    cases hget : dictGet params qarg with
    | some val0 =>
      cases qval with
      | leaf kind =>
        by_cases hf : kind = "FREE"
        · subst hf
          simp [parseFragments, hget, ih]
          cases parseFragments params rest <;> cases parseFragments params ys <;>
            simp [Except.map]
        · by_cases hl : kind = "LITERAL"
          · subst hl
            simp [parseFragments, hget, ih]
            cases parseFragments params rest <;> cases parseFragments params ys <;>
              simp [Except.map]
          · simp [parseFragments, hget, hf, hl]
      | group g => simp [parseFragments, hget]
    | none =>
      cases qval with
      | leaf k => simp [parseFragments, hget, ih]
      | group g =>
        cases hg : parseFragments params g with
        | ok inner =>
          simp [parseFragments, hget, hg, ih]
          cases parseFragments params rest <;> cases parseFragments params ys <;>
            simp [Except.map]
        | error e => simp [parseFragments, hget, hg]

theorem parseFragments_nil (params : List (String × PyVal)) :
    parseFragments params [] = Except.ok [] := by
  simp [parseFragments]

theorem parseFragments_allLeafAbsent (params : List (String × PyVal))
    (g : List (String × SchemaNode))
    (h : ∀ p ∈ g, dictGet params p.1 = Option.none ∧ ∃ k, p.2 = SchemaNode.leaf k) :
    parseFragments params g = Except.ok [] := by
  induction g with
  | nil => simp [parseFragments]
  | cons p rest ih =>
    obtain ⟨n, node⟩ := p
    obtain ⟨hn, k, hk⟩ := h (n, node) (by simp)
    subst hk
    simp [parseFragments, hn]
    exact ih (fun p hp => h p (by simp [hp]))

/-- Helper: with no parameters supplied, the GetUsage schema (all leaves)
serializes to the empty argument string. -/
theorem parseFormatParams_GetUsage_noParams : parseFormatParams [] GetUsage.query_args = Except.ok "" := by
  rw [parseFormatParams,
    parseFragments_allLeafAbsent [] GetUsage.query_args (by
      intro p hp
      refine ⟨by simp [dictGet], ?_⟩
      simp [GetUsage] at hp
      rcases hp with h | h | h | h <;> subst h <;> exact ⟨_, rfl⟩)]
  rfl

/-- The toy schema used by the examples of the specification:
`{"a": FreeText, "b": {"c": Literal}}`. -/
def exampleSchema : List (String × SchemaNode) :=
  [("a", SchemaNode.leaf "FREE"), ("b", SchemaNode.group [("c", SchemaNode.leaf "LITERAL")])]

/-- Claim C1 counterexample: for schema `{"a": FreeText, "b": {"c": Literal}}`
and values `{"a": "x"}` the builder yields exactly `a:"x",b:{}` — the group
name `b` appears — not the claimed exact string `a:"x"`. -/
theorem C1_counterexample :
    parseFormatParams [("a", PyVal.str "x")] exampleSchema
      = Except.ok "a:\"x\",b:\x7b\x7d"
    ∧ ("a:\"x\",b:\x7b\x7d" : String) ≠ "a:\"x\"" := by
  constructor
  · simp [parseFormatParams, parseFragments, exampleSchema, dictGet, jsonDumps, pyBoolToStr]
    rfl
  · decide

/-- Claim C1 (amended): for every schema containing a nested group all of
whose entries are leaves, and every values mapping containing neither the
group name nor any child parameter, the built argument string does not omit
the group: the group is emitted as `name:{}` with an empty body (the source
appends the entry unconditionally). -/
theorem C1_emptyGroupEmitted (params : List (String × PyVal))
    (pre rest : List (String × SchemaNode)) (n : String)
    (g : List (String × SchemaNode)) (l r : List String)
    (hn : dictGet params n = Option.none)
    (hg : ∀ p ∈ g, dictGet params p.1 = Option.none ∧ ∃ k, p.2 = SchemaNode.leaf k)
    (hpre : parseFragments params pre = Except.ok l)
    (hrest : parseFragments params rest = Except.ok r) :
    parseFormatParams params (pre ++ (n, SchemaNode.group g) :: rest)
      = Except.ok (String.intercalate "," (l ++ (n ++ ":\x7b\x7d") :: r)) := by
  rw [parseFormatParams, parseFragments_append, hpre]
  have hmid : parseFragments params ((n, SchemaNode.group g) :: rest)
      = Except.ok ((n ++ ":\x7b\x7d") :: r) := by
    simp [parseFragments, hn, parseFragments_allLeafAbsent params g hg, hrest]
    rw [show (",".intercalate ([] : List String)) = "" from rfl, String.append_empty,
      String.append_assoc, show (":\x7b" ++ "\x7d" : String) = ":\x7b\x7d" from rfl]
    rfl
  rw [hmid]
  rfl

/-- Claim C1 witness: the amended statement evaluated at the example of the
spec. -/
theorem C1_emptyGroupEmitted_witness :
    parseFormatParams [("a", PyVal.str "x")] exampleSchema
      = Except.ok "a:\"x\",b:\x7b\x7d" := by
  have h := C1_emptyGroupEmitted [("a", PyVal.str "x")]
    [("a", SchemaNode.leaf "FREE")] [] "b" [("c", SchemaNode.leaf "LITERAL")]
    ["a:\"x\""] [] rfl
    (by intro p hp; simp at hp; subst hp; exact ⟨rfl, "LITERAL", rfl⟩)
    (by simp [parseFragments, dictGet, jsonDumps, pyBoolToStr]; rfl) (parseFragments_nil _)
  simpa [exampleSchema] using h

/-- Claim C2 counterexample: at the exact input of the claim — schema
`{"a": FreeText, "b": {"c": Literal}}`, values `{"a": "x", "b": {"c": true}}` —
the builder raises `AttributeError` (modelled as `Except.error`) instead of
returning the claimed string `a:"x",b:{c:true}`. -/
theorem C2_counterexample :
    parseFormatParams [("a", PyVal.str "x"), ("b", PyVal.dict [("c", PyVal.bool true)])]
        exampleSchema
      = Except.error "AttributeError: dict object has no attribute name"
    ∧ Except.error "AttributeError: dict object has no attribute name"
      ≠ (Except.ok "a:\"x\",b:\x7bc:true\x7d" : Except String String) := by
  constructor
  · have hfrag : parseFragments
          [("a", PyVal.str "x"), ("b", PyVal.dict [("c", PyVal.bool true)])] exampleSchema
        = Except.error "AttributeError: dict object has no attribute name" := by
      simp [parseFragments, exampleSchema, dictGet, jsonDumps, pyBoolToStr, Except.map]
    rw [parseFormatParams, hfrag]
    rfl
  · intro h
    cases h

/-- Claim C2 (amended): supplying the values of a nested group as a
sub-mapping under the group name makes `_parse_format_params` raise
`AttributeError` — whatever value is stored under the group name — because
the group name is found in `params` and the leaf branch then evaluates
`.name` on the nested schema dict.  The serialization the claim describes is
produced when the nested values are given flat in the same mapping:
`{"a": "x", "c": true}` yields `a:"x",b:{c:true}`. -/
theorem C2_nestedValuesAreFlat :
    (∀ v : PyVal,
      parseFormatParams [("a", PyVal.str "x"), ("b", v)] exampleSchema
        = Except.error "AttributeError: dict object has no attribute name")
    ∧ parseFormatParams [("a", PyVal.str "x"), ("c", PyVal.bool true)] exampleSchema
      = Except.ok "a:\"x\",b:\x7bc:true\x7d" := by
  constructor
  · intro v
    have hfrag : parseFragments [("a", PyVal.str "x"), ("b", v)] exampleSchema
        = Except.error "AttributeError: dict object has no attribute name" := by
      simp [parseFragments, exampleSchema, dictGet, jsonDumps, pyBoolToStr, Except.map]
    rw [parseFormatParams, hfrag]
    rfl
  · simp [parseFormatParams, parseFragments, exampleSchema, dictGet, jsonDumps, pyStr,
      pyBoolToStr, pythonBool]
    rfl

/-- Claim C2 witness: the error branch of the amended statement at the
dict-valued input of the original claim. -/
theorem C2_nestedValuesAreFlat_witness :
    parseFormatParams [("a", PyVal.str "x"), ("b", PyVal.dict [("c", PyVal.bool true)])]
        exampleSchema
      = Except.error "AttributeError: dict object has no attribute name" :=
  C2_nestedValuesAreFlat.1 (PyVal.dict [("c", PyVal.bool true)])

/-- Claim C7 counterexample: a boolean supplied for a FreeText parameter is
rendered QUOTED — `a:"true"` — not as the claimed unquoted token `a:true`
(the lowercased string is passed through `json.dumps`). -/
theorem C7_counterexample :
    parseFormatParams [("a", PyVal.bool true)] [("a", SchemaNode.leaf "FREE")]
      = Except.ok "a:\"true\""
    ∧ ("a:\"true\"" : String) ≠ "a:true" := by
  constructor
  · simp [parseFormatParams, parseFragments, dictGet, jsonDumps, pyBoolToStr, pythonBool]
    rfl
  · decide

/-- Claim C7 (amended): a boolean value is first lowercased to
`true`/`false`; it renders as that unquoted token only for a Literal kind
parameter, while for a FreeText kind parameter it is passed through
`json.dumps` and renders quoted (`"true"`/`"false"`). -/
theorem C7_boolRendering (params : List (String × PyVal)) (n : String) (b : Bool)
    (h : dictGet params n = some (PyVal.bool b)) :
    parseFragments params [(n, SchemaNode.leaf "LITERAL")]
      = Except.ok [n ++ ":" ++ pythonBool b]
    ∧ parseFragments params [(n, SchemaNode.leaf "FREE")]
      = Except.ok [n ++ ":" ++ jsonQuote (pythonBool b)]
    ∧ jsonQuote (pythonBool b) = (if b then "\"true\"" else "\"false\"") := by
  refine ⟨?_, ?_, ?_⟩
  · simp [parseFragments, h, pyStr, pyBoolToStr, parseFragments_nil, Except.map]
  · simp [parseFragments, h, parseFragments_nil, jsonDumps, pyBoolToStr, Except.map]
  · cases b <;> rfl

/-- Claim C7 witness: both renderings at the concrete value `False`. -/
theorem C7_boolRendering_witness :
    parseFragments [("a", PyVal.bool false)] [("a", SchemaNode.leaf "LITERAL")]
      = Except.ok ["a:false"]
    ∧ parseFragments [("a", PyVal.bool false)] [("a", SchemaNode.leaf "FREE")]
      = Except.ok ["a:" ++ jsonQuote "false"] := by
  have h := C7_boolRendering [("a", PyVal.bool false)] "a" false rfl
  exact ⟨by simpa [pythonBool] using h.1, by simpa [pythonBool] using h.2.1⟩

/-- Claim C8 (code bug): when a schema entry has an unrecognized parameter
kind and its name is present in the values mapping, the source does NOT log
and continue with an empty value: the logging statement itself evaluates
`qarg.name` — an attribute access on the string key — so the call raises
`AttributeError` before anything is logged and the query construction
aborts.  (The dead assignment `fval` = empty string after the logging line
shows the logged-and-continue intent that the claim and spec describe.) -/
theorem C8_unrecognizedKindRaises :
    parseFormatParams [("a", PyVal.str "v")] [("a", SchemaNode.leaf "CUSTOM")]
      = Except.error "AttributeError: str object has no attribute name" := by
  have hfrag : parseFragments [("a", PyVal.str "v")] [("a", SchemaNode.leaf "CUSTOM")]
      = Except.error "AttributeError: str object has no attribute name" := by
    simp [parseFragments, dictGet, pyBoolToStr, Except.map]
  rw [parseFormatParams, hfrag]
  rfl

/-- Claim C9: a FreeText string parameter renders as `name:` followed by the
`json.dumps` quoted and escaped form of the value, and decoding that quoted
form with a standard JSON string decoder returns the original string —
round-trip `decode(render(s)) = s` — for every string, including embedded
quotes and backslashes. -/
theorem C9_freeTextRoundTrip (params : List (String × PyVal)) (n : String) (s : String)
    (h : dictGet params n = some (PyVal.str s)) :
    parseFragments params [(n, SchemaNode.leaf "FREE")] = Except.ok [n ++ ":" ++ jsonQuote s]
    ∧ decodeJSONString (jsonQuote s) = some s := by
  constructor
  · simp [parseFragments, h, parseFragments_nil, jsonDumps, pyBoolToStr, Except.map]
  · exact decode_encode s

/-- Claim C9 witness: the round-trip at a value containing an embedded
quote and backslash. -/
theorem C9_freeTextRoundTrip_witness :
    parseFragments [("p", PyVal.str "a\"b\\c")] [("p", SchemaNode.leaf "FREE")]
      = Except.ok ["p:" ++ jsonQuote "a\"b\\c"]
    ∧ decodeJSONString (jsonQuote "a\"b\\c") = some "a\"b\\c"
    ∧ jsonQuote "a\"b\\c" = "\"a\\\"b\\\\c\"" := by
  have h := C9_freeTextRoundTrip [("p", PyVal.str "a\"b\\c")] "p" "a\"b\\c" rfl
  exact ⟨h.1, h.2, rfl⟩

/-- Claim C4: for a truthy (non-empty) fallback, when the response is a
mapping whose `data` field is itself a mapping, `_filter_response` returns
`response.data[operation]` when that key is present, and returns the
fallback unchanged — message not overwritten, fallback object untouched —
when the key is absent.  (A falsy caller fallback is first replaced by the
built-in default; that separate behavior is claim C10.) -/
theorem C4_successPath (entries res : List (String × PyVal)) (op : String) (fb : PyVal)
    (hfb : isTruthy fb = true)
    (hdata : dictGet entries "data" = some (PyVal.dict res)) :
    (∀ v, dictGet res op = some v → filterResponse (PyVal.dict entries) op fb = v)
    ∧ (dictGet res op = Option.none →
        filterResponse (PyVal.dict entries) op fb = fb
        ∧ fallbackAfter (PyVal.dict entries) op fb = fb) := by
  refine ⟨fun v hv => ?_, fun hnone => ⟨?_, ?_⟩⟩
  · simp [filterResponse, hfb, hdata, hv]
  · simp [filterResponse, hfb, hdata, hnone]
  · simp [fallbackAfter, hfb, hdata]

/-- Claim C4 witness: the example of the spec,
`filter({"data": {"op": {"success": true}}}, "op", fallback)`. -/
theorem C4_successPath_witness :
    filterResponse (PyVal.dict [("data", PyVal.dict [("op", PyVal.dict [("success", PyVal.bool true)])])])
        "op" (PyVal.dict [("success", PyVal.bool false), ("message", PyVal.str "generic")])
      = PyVal.dict [("success", PyVal.bool true)] :=
  (C4_successPath [("data", PyVal.dict [("op", PyVal.dict [("success", PyVal.bool true)])])]
    [("op", PyVal.dict [("success", PyVal.bool true)])] "op"
    (PyVal.dict [("success", PyVal.bool false), ("message", PyVal.str "generic")])
    rfl rfl).1 (PyVal.dict [("success", PyVal.bool true)]) rfl

/-- Claim C5: on the failure path (response not a mapping, or its `data`
field absent or not a mapping), with a truthy dict fallback,
`_filter_response` returns the fallback with its `message` entry overwritten
by `response.errors[0].message` when that read succeeds, and the fallback
with its original message unchanged when `errors` is absent or malformed.
The read is modelled by the total function `readErrorMessage`, mirroring
that the `finally` clause never propagates a failure of the read. -/
theorem C5_failurePath (response : PyVal) (op : String) (es : List (String × PyVal))
    (hfb : isTruthy (PyVal.dict es) = true)
    (hfail : isFailureShape response = true) :
    (∀ m, readErrorMessage response = some m →
        filterResponse response op (PyVal.dict es)
          = PyVal.dict (setEntry es "message" m))
    ∧ (readErrorMessage response = Option.none →
        filterResponse response op (PyVal.dict es) = PyVal.dict es) := by
  constructor
  · intro m hm
    cases response with
    | dict entries =>
      rcases hd : dictGet entries "data" with _ | v
      · simp [filterResponse, hfb, hd, failureResult, hm, dictSet]
      · cases v <;>
          simp [filterResponse, hfb, hd, failureResult, hm, dictSet] <;>
          simp [isFailureShape, hd] at hfail
    | _ => simp_all [filterResponse, hfb, failureResult, dictSet]
  · intro hm
    cases response with
    | dict entries =>
      rcases hd : dictGet entries "data" with _ | v
      · simp [filterResponse, hfb, hd, failureResult, hm]
      · cases v <;>
          simp [filterResponse, hfb, hd, failureResult, hm] <;>
          simp [isFailureShape, hd] at hfail
    | _ => simp_all [filterResponse, hfb, failureResult]

/-- Claim C5 witness: the example of the spec,
`filter({"errors": [{"message": "bad input"}]}, "op", {...})`. -/
theorem C5_failurePath_witness :
    filterResponse (PyVal.dict [("errors", PyVal.list [PyVal.dict [("message", PyVal.str "bad input")]])])
        "op" (PyVal.dict [("success", PyVal.bool false), ("message", PyVal.str "generic")])
      = PyVal.dict [("success", PyVal.bool false), ("message", PyVal.str "bad input")] := by
  have h := (C5_failurePath
    (PyVal.dict [("errors", PyVal.list [PyVal.dict [("message", PyVal.str "bad input")]])])
    "op" [("success", PyVal.bool false), ("message", PyVal.str "generic")]
    rfl rfl).1 (PyVal.str "bad input") rfl
  simpa [setEntry] using h

/-- Claim C6 counterexample: `filter({"data": {"op": null}}, "op", None)`
returns `null` (Python `None`), which is not a mapping — refuting the claim
that the result is always a mapping. -/
theorem C6_counterexample :
    filterResponse (PyVal.dict [("data", PyVal.dict [("op", PyVal.none)])]) "op" PyVal.none
      = PyVal.none
    ∧ isDict PyVal.none = false :=
  ⟨rfl, rfl⟩

/-- Claim C6 (amended): `_filter_response` is total (the embedding is a
total function: the try/finally of the source swallows every exception on
the failure path, and the success path cannot raise), and for every
response and every dict-or-None fallback the result is a mapping EXCEPT on
the success path when `response.data[operation]` is present: that value is
returned verbatim even when it is not a mapping (e.g. null). -/
theorem C6_alwaysMappingExceptPayload (response : PyVal) (op : String) (fb : PyVal)
    (hfb : fb = PyVal.none ∨ ∃ es, fb = PyVal.dict es) :
    isDict (filterResponse response op fb) = true
    ∨ ∃ entries res v, response = PyVal.dict entries
        ∧ dictGet entries "data" = some (PyVal.dict res)
        ∧ dictGet res op = some v
        ∧ filterResponse response op fb = v := by
  have hdictfb : isDict (if isTruthy fb then fb else defaultFallback) = true := by
    rcases hfb with h | ⟨es, h⟩ <;> subst h
    · simp [isTruthy, defaultFallback, isDict]
    · by_cases he : isTruthy (PyVal.dict es) <;> simp [he, isDict, defaultFallback]
  have hfail : ∀ r, isDict (failureResult r (if isTruthy fb then fb else defaultFallback)) = true := by
    intro r
    rcases hh : readErrorMessage r with _ | m
    · simpa [failureResult, hh] using hdictfb
    · rcases hd : (if isTruthy fb then fb else defaultFallback) with s | b | i | _ | xs | es <;>
        simp [hd, isDict] at hdictfb <;>
        simp [failureResult, hh, dictSet, hd, isDict]
  cases response with
  | dict entries =>
    rcases hd : dictGet entries "data" with _ | v
    · left
      simpa [filterResponse, hd] using hfail (PyVal.dict entries)
    · cases v with
      | dict res =>
        rcases hop : dictGet res op with _ | v
        · left
          simp [filterResponse, hd, hop, hdictfb]
        · right
          exact ⟨entries, res, v, rfl, hd, hop, by simp [filterResponse, hd, hop]⟩
      | _ =>
        left
        simpa [filterResponse, hd] using hfail (PyVal.dict entries)
  | str s =>
    left
    simpa [filterResponse] using hfail (PyVal.str s)
  | bool b =>
    left
    simpa [filterResponse] using hfail (PyVal.bool b)
  | int i =>
    left
    simpa [filterResponse] using hfail (PyVal.int i)
  | none =>
    left
    simpa [filterResponse] using hfail PyVal.none
  | list xs =>
    left
    simpa [filterResponse] using hfail (PyVal.list xs)

/-- Claim C6 witness: the amended statement at a raw-string response. -/
theorem C6_alwaysMappingExceptPayload_witness :
    isDict (filterResponse (PyVal.str "not a dict") "op" PyVal.none) = true :=
  (C6_alwaysMappingExceptPayload (PyVal.str "not a dict") "op" PyVal.none
    (Or.inl rfl)).resolve_right
    (by rintro ⟨entries, res, v, heq, -, -, -⟩; cases heq)

/-- Claim C10: a falsy caller-supplied fallback (None or an empty dict) is
ignored on every path: `_filter_response` behaves exactly as if called with
the built-in default fallback
`{"success": false, "message": "[migas-py] An error occurred."}`; in
particular the default is the else-result on success-shaped responses with
the operation key absent, and the returned mapping on the failure path when
no error message can be read. -/
theorem C10_falsyFallbackReplaced (response : PyVal) (op : String) :
    filterResponse response op PyVal.none = filterResponse response op defaultFallback
    ∧ filterResponse response op (PyVal.dict []) = filterResponse response op defaultFallback
    ∧ (∀ entries res, response = PyVal.dict entries →
        dictGet entries "data" = some (PyVal.dict res) → dictGet res op = Option.none →
        filterResponse response op PyVal.none = defaultFallback)
    ∧ (isFailureShape response = true → readErrorMessage response = Option.none →
        filterResponse response op PyVal.none = defaultFallback) := by
  refine ⟨?_, ?_, ?_, ?_⟩
  · simp [filterResponse, isTruthy, defaultFallback]
  · simp [filterResponse, isTruthy, defaultFallback]
  · intro entries res heq hdata hop
    subst heq
    simp [filterResponse, isTruthy, defaultFallback, hdata, hop]
  · intro hfail hmsg
    cases response with
    | dict entries =>
      rcases hd : dictGet entries "data" with _ | v
      · simp [filterResponse, isTruthy, defaultFallback, hd, failureResult, hmsg]
      · cases v with
        | dict res => simp [isFailureShape, hd] at hfail
        | str s => simp [filterResponse, isTruthy, defaultFallback, hd, failureResult, hmsg]
        | bool b => simp [filterResponse, isTruthy, defaultFallback, hd, failureResult, hmsg]
        | int i => simp [filterResponse, isTruthy, defaultFallback, hd, failureResult, hmsg]
        | none => simp [filterResponse, isTruthy, defaultFallback, hd, failureResult, hmsg]
        | list xs => simp [filterResponse, isTruthy, defaultFallback, hd, failureResult, hmsg]
    | str s => simp [filterResponse, isTruthy, defaultFallback, failureResult, hmsg]
    | bool b => simp [filterResponse, isTruthy, defaultFallback, failureResult, hmsg]
    | int i => simp [filterResponse, isTruthy, defaultFallback, failureResult, hmsg]
    | none => simp [filterResponse, isTruthy, defaultFallback, failureResult, hmsg]
    | list xs => simp [filterResponse, isTruthy, defaultFallback, failureResult, hmsg]

/-- Claim C10 witness: the failure path with no `errors` field returns the
built-in default. -/
theorem C10_falsyFallbackReplaced_witness :
    filterResponse (PyVal.dict [("data", PyVal.none)]) "op" PyVal.none = defaultFallback :=
  (C10_falsyFallbackReplaced (PyVal.dict [("data", PyVal.none)]) "op").2.2.2 rfl rfl

/-- Claim C3 counterexample: `_construct_query` mutates per-operation spec
data — it overwrites the `query` field of the operation (initially the empty
string) with the constructed query text. -/
theorem C3_counterexample :
    constructQuery GetUsage []
      = Except.ok ({ GetUsage with query := "query\x7bget_usage()\x7d" },
          "query\x7bget_usage()\x7d")
    ∧ GetUsage.query = ""
    ∧ ({ GetUsage with query := "query\x7bget_usage()\x7d" } : Operation).query
      ≠ GetUsage.query := by
  refine ⟨?_, rfl, by decide⟩
  rw [constructQuery, parseFormatParams_GetUsage_noParams]
  rfl

/-- Claim C3 (amended): `_construct_query` leaves every field of the
operation spec unchanged — in particular the `query_args` schema and
`error_response` — EXCEPT `query`, which it overwrites with the constructed
text; and `_filter_response` leaves the caller-supplied fallback object (the
per-operation `error_response` when that is passed) unchanged except
possibly its `message` entry, which it overwrites in place on the failure
path when the error read succeeds. -/
theorem C3_specMutation (op : Operation) (params : List (String × PyVal))
    (op2 : Operation) (q : String)
    (h : constructQuery op params = Except.ok (op2, q)) :
    (op2.query_args = op.query_args ∧ op2.operation_type = op.operation_type
      ∧ op2.operation_name = op.operation_name ∧ op2.selections = op.selections
      ∧ op2.fingerprint = op.fingerprint ∧ op2.error_response = op.error_response
      ∧ op2.query = q)
    ∧ (∀ (response : PyVal) (oper : String) (fb : PyVal),
        fallbackAfter response oper fb = fb
        ∨ ∃ m, readErrorMessage response = some m
            ∧ fallbackAfter response oper fb = dictSet fb "message" m) := by
  constructor
  · rw [constructQuery] at h
    rcases hpf : parseFormatParams params op.query_args with e | args <;> rw [hpf] at h
    · simp [Except.map] at h
    · simp only [Except.map, Except.ok.injEq, Prod.mk.injEq] at h
      obtain ⟨h1, h2⟩ := h
      subst h1
      subst h2
      exact ⟨rfl, rfl, rfl, rfl, rfl, rfl, rfl⟩
  · intro response oper fb
    by_cases hfb : isTruthy fb
    · have hcases : ∀ r : PyVal,
          failureResult r fb = fb
          ∨ ∃ m, readErrorMessage r = some m ∧ failureResult r fb = dictSet fb "message" m := by
        intro r
        rcases hm : readErrorMessage r with _ | m
        · left; simp [failureResult, hm]
        · right; exact ⟨m, rfl, by simp [failureResult, hm]⟩
      cases response with
      | dict entries =>
        rcases hd : dictGet entries "data" with _ | v
        · simpa [fallbackAfter, hfb, hd] using hcases (PyVal.dict entries)
        · cases v with
          | dict res => left; simp [fallbackAfter, hfb, hd]
          | str s => simpa [fallbackAfter, hfb, hd] using hcases (PyVal.dict entries)
          | bool b => simpa [fallbackAfter, hfb, hd] using hcases (PyVal.dict entries)
          | int i => simpa [fallbackAfter, hfb, hd] using hcases (PyVal.dict entries)
          | none => simpa [fallbackAfter, hfb, hd] using hcases (PyVal.dict entries)
          | list xs => simpa [fallbackAfter, hfb, hd] using hcases (PyVal.dict entries)
      | str s => simpa [fallbackAfter, hfb] using hcases (PyVal.str s)
      | bool b => simpa [fallbackAfter, hfb] using hcases (PyVal.bool b)
      | int i => simpa [fallbackAfter, hfb] using hcases (PyVal.int i)
      | none => simpa [fallbackAfter, hfb] using hcases PyVal.none
      | list xs => simpa [fallbackAfter, hfb] using hcases (PyVal.list xs)
    · left; simp [fallbackAfter, hfb]

/-- Claim C3 witness: the amended statement at the GetUsage operation with
no parameters. -/
theorem C3_specMutation_witness :
    constructQuery GetUsage []
      = Except.ok ({ GetUsage with query := "query\x7bget_usage()\x7d" },
          "query\x7bget_usage()\x7d")
    ∧ ({ GetUsage with query := "query\x7bget_usage()\x7d" } : Operation).query_args
      = GetUsage.query_args := by
  have heval : constructQuery GetUsage []
      = Except.ok ({ GetUsage with query := "query\x7bget_usage()\x7d" },
          "query\x7bget_usage()\x7d") := by
    rw [constructQuery, parseFormatParams_GetUsage_noParams]
    rfl
  exact ⟨heval, (C3_specMutation GetUsage [] _ _ heval).1.1⟩
